import Mathlib

/-!
Verification development for the change-risk / coverage-gap heuristic engine
(`coverage-router.ts` and `diff-classifier.ts` of the `@claude-flow/cli`
ruvector module).

Modelling conventions for the shallow embedding of the TypeScript source:
* JavaScript numbers are modelled as exact rationals (`ℚ`); integer counters
  as `Nat`/`Int`.  Floating-point rounding, `NaN` and `Infinity` are outside
  the model except where noted: the result of `Number`/`parseInt` is an
  `Option` value whose `none` case stands for `NaN` (and for `undefined`
  where the source reads a missing array slot).
* Strings are processed over their character lists with structurally
  recursive helpers so that every definition evaluates inside the kernel.
  `toLowerCase` is modelled ASCII-wise by `Char.toLower`, `trim` by
  stripping `Char.isWhitespace` characters.
* The filesystem (`existsSync`/`readFileSync`) is modelled by an oracle
  `FS : String → Option String` mapping a path to its contents when the file
  exists; `path.join`/`path.resolve` are modelled as `/`-concatenation.
* `JSON.parse` is modelled by an oracle producing an `Except String Json`
  value over a JSON value tree; the text-level JSON grammar is out of scope.
* Thrown JavaScript exceptions are modelled by `Except`/`Option` results or
  by an explicit `thrown` constructor where the source catches them.
-/

namespace RuVector

/-! ### Character and string helpers (structural, kernel-evaluable) -/

/-- JavaScript `\w` word character: `[A-Za-z0-9_]`. -/
def isWordChar (c : Char) : Bool :=
  c.isAlpha || c.isDigit || c == '_'

/-- `needle` occurs as a contiguous substring of the character list. -/
def infixB (needle : List Char) : List Char → Bool
  | [] => needle.isPrefixOf []
  | c :: rest => needle.isPrefixOf (c :: rest) || infixB needle rest

/-- JavaScript `String.prototype.includes`. -/
def strHas (s sub : String) : Bool := infixB sub.data s.data

/-- JavaScript `String.prototype.startsWith`. -/
def strStarts (s pre : String) : Bool := pre.data.isPrefixOf s.data

/-- Regex `$`-anchored suffix test. -/
def strEnds (s sfx : String) : Bool := sfx.data.isSuffixOf s.data

/-- ASCII model of JavaScript `toLowerCase`. -/
def lowerStr (s : String) : String := String.mk (s.data.map Char.toLower)

/-- `String.prototype.substring(n)` (drop the first `n` characters). -/
def strDrop (n : Nat) (s : String) : String := String.mk (s.data.drop n)

/-- Strip leading whitespace characters. -/
def dropWs (l : List Char) : List Char := l.dropWhile Char.isWhitespace

/-- JavaScript `String.prototype.trim` over a character list. -/
def trimChars (l : List Char) : List Char := ((dropWs l).reverse.dropWhile Char.isWhitespace).reverse

/-- JavaScript `String.prototype.trim`. -/
def trimStr (s : String) : String := String.mk (trimChars s.data)

/-- Fuel-driven splitter: splits at each leftmost occurrence of the
non-empty separator, like `String.prototype.split`. -/
def splitGo (sep : List Char) : Nat → List Char → List Char → List (List Char)
  | _, [], acc => [acc.reverse]
  | 0, s, acc => [acc.reverse ++ s]
  | fuel + 1, c :: rest, acc =>
    if sep.isPrefixOf (c :: rest) then
      acc.reverse :: splitGo sep fuel ((c :: rest).drop sep.length) []
    else
      splitGo sep fuel rest (c :: acc)

/-- JavaScript `String.prototype.split` with a non-empty string separator
(the empty separator splits into single characters, as in JavaScript). -/
def splitStr (s sep : String) : List String :=
  if sep.data = [] then s.data.map (fun c => String.mk [c])
  else (splitGo sep.data s.data.length s.data []).map String.mk

/-- Read a run of decimal digits, returning value, digit count and rest. -/
def readDigits : List Char → Nat → Nat → Nat × Nat × List Char
  | [], v, n => (v, n, [])
  | c :: r, v, n =>
    if c.isDigit then readDigits r (v * 10 + (c.toNat - 48)) (n + 1) else (v, n, c :: r)

/-- JavaScript `parseInt(s, 10)`: skip leading whitespace, optional sign,
read leading digits ignoring trailing characters; `none` models `NaN`. -/
def jsParseInt (s : String) : Option Int :=
  let l := dropWs s.data
  let (neg, l') : Bool × List Char :=
    match l with
    | '-' :: r => (true, r)
    | '+' :: r => (false, r)
    | r => (false, r)
  let (v, n, _) := readDigits l' 0 0
  if n = 0 then none else some (if neg then -(v : Int) else (v : Int))

/-- JavaScript `Number(s)` restricted to plain decimal literals: the empty
(trimmed) string is `0`; `[sign] digits [. digits]` parses exactly; anything
else (including exponents and hex, not used by the reports) is `NaN`. -/
def jsNumber (s : String) : Option ℚ :=
  let l := trimChars s.data
  if l = [] then some 0
  else
    let (neg, l') : Bool × List Char :=
      match l with
      | '-' :: r => (true, r)
      | '+' :: r => (false, r)
      | r => (false, r)
    let (v, n, rest) := readDigits l' 0 0
    let (f, m, rest') : Nat × Nat × List Char :=
      match rest with
      | '.' :: r2 => readDigits r2 0 0
      | r2 => (0, 0, r2)
    if n + m = 0 then none
    else if rest' = [] then
      let q : ℚ := (v : ℚ) + (f : ℚ) / ((10 : ℚ) ^ m)
      some (if neg then -q else q)
    else none

/-- JavaScript `x > 0` where `x` may be `NaN`/`undefined` (`none`). -/
def optGtZero : Option ℚ → Bool
  | some q => q > 0
  | none => false

/-- Integer parse coerced to a non-negative count; `NaN` and negative values
(which do not occur in well-formed reports) are modelled as `0`. -/
def natOfParseInt (s : String) : Nat :=
  match jsParseInt s with
  | some i => i.toNat
  | none => 0

/-- First-occurrence deduplication (JavaScript `Array.from(new Set(xs))`),
written with an accumulator so that it is structurally recursive. -/
def dedupAux {α : Type} [DecidableEq α] : List α → List α → List α
  | [], _ => []
  | a :: rest, seen =>
    if a ∈ seen then dedupAux rest seen else a :: dedupAux rest (a :: seen)

/-- JavaScript `Array.from(new Set(xs))`: keeps the first occurrence of each
element, in order. -/
def dedupFirst {α : Type} [DecidableEq α] (l : List α) : List α := dedupAux l []

/-- Everything after the final `/` (Node `path.basename`; trailing-separator
stripping is irrelevant for the paths this code builds). -/
def basenameOf (p : String) : String := (splitStr p "/").getLastD p

/-- Index of the last `.` in a character list, if any. -/
def lastDotIdx (l : List Char) : Option Nat :=
  (l.enum.filter (fun ic => ic.2 == '.')).getLast?.map Prod.fst

/-- Node `path.extname`: from the last `.` of the basename, unless that dot
is the leading character. -/
def extnameOf (p : String) : String :=
  let base := basenameOf p
  match lastDotIdx base.data with
  | some i => if i > 0 then String.mk (base.data.drop i) else ""
  | none => ""

/-- Node `path.join`/`path.resolve` modelled as `/`-concatenation (the
filesystem oracle interprets whole path strings, so normalization is moot). -/
def pathJoin (a b : String) : String := a ++ "/" ++ b

/-- JavaScript `x.toFixed(1)` for the exact rationals of this model:
round half away from zero to one decimal place. -/
def toFixed1 (q : ℚ) : String :=
  if q < 0 then
    let n := (-q * 10 + 1/2).floor.toNat
    "-" ++ toString (n / 10) ++ "." ++ toString (n % 10)
  else
    let n := (q * 10 + 1/2).floor.toNat
    toString (n / 10) ++ "." ++ toString (n % 10)

/-! ### Data model -/

/-- `DiffFile` of `diff-classifier.ts`. -/
inductive FileStatus
  | added
  | modified
  | deleted
  | renamed
deriving DecidableEq, Repr

structure DiffFile where
  path : String
  status : FileStatus
  additions : Nat
  deletions : Nat
  hunks : Nat
  binary : Bool
  oldPath : Option String
deriving DecidableEq, Repr

/-- `RiskLevel` of `diff-classifier.ts`. -/
inductive RiskLevel
  | lowRisk
  | mediumRisk
  | highRisk
  | critical
deriving DecidableEq, Repr

structure FileRisk where
  path : String
  risk : RiskLevel
  score : Int
  reasons : List String
deriving DecidableEq, Repr

structure DiffClassification where
  category : String
  subcategory : Option String
  confidence : ℚ
  reasoning : String
deriving DecidableEq, Repr

/-- `UncoveredBranch` of `coverage-router.ts`; a `NaN`/`undefined` line
number is modelled as `none`, the branch kind as its string tag. -/
structure UncoveredBranch where
  line : Option ℚ
  column : Option ℚ
  type : String
deriving DecidableEq, Repr

structure CoverageData where
  filePath : String
  lineCoverage : ℚ
  branchCoverage : ℚ
  functionCoverage : ℚ
  statementCoverage : ℚ
  uncoveredLines : List (Option ℚ)
  uncoveredBranches : List UncoveredBranch
  uncoveredFunctions : List String
  totalLines : Nat
  coveredLines : Nat
deriving DecidableEq, Repr

inductive GapKind
  | critical
  | high
  | medium
  | low
deriving DecidableEq, Repr

structure CoverageGap where
  filePath : String
  coveragePercent : ℚ
  gapType : GapKind
  complexity : Nat
  priority : ℚ
  suggestedAgents : List String
  uncoveredLines : List (Option ℚ)
  reason : String
deriving DecidableEq, Repr

structure CoverageSummary where
  totalFiles : Nat
  overallLineCoverage : ℚ
  overallBranchCoverage : ℚ
  overallFunctionCoverage : ℚ
  overallStatementCoverage : ℚ
  filesBelowThreshold : Nat
  coverageThreshold : ℚ
deriving DecidableEq, Repr

structure RoutingInfo where
  primaryAgent : String
  confidence : ℚ
  reason : String
  coverageImpact : String
deriving DecidableEq, Repr

structure RouteMetrics where
  filesAnalyzed : Nat
  totalGaps : Nat
  criticalGaps : Nat
  avgCoverage : ℚ
deriving DecidableEq, Repr

structure CoverageRouteResult where
  success : Bool
  task : String
  coverageAware : Bool
  gaps : List CoverageGap
  routing : RoutingInfo
  suggestions : List String
  metrics : RouteMetrics
deriving DecidableEq, Repr

/-- Coverage report format tag (`'lcov' | 'istanbul' | 'c8' | 'none'`). -/
inductive CovFormat
  | lcov
  | istanbul
  | c8
  | none
deriving DecidableEq, Repr

/-- Filesystem oracle: `existsSync p` is `(fs p).isSome` and `readFileSync`
returns the carried contents. -/
def FS : Type := String → Option String

/-! ### diff-classifier.ts: risk patterns -/

/-- One entry of the ordered pattern tables: a path predicate and the
human-readable reason recorded when it matches. -/
structure RiskPattern where
  test : String → Bool
  reason : String

/-- Case-insensitive alternation of plain substrings (regex `/a|b|.../i`). -/
def containsAnyCI (p : String) (subs : List String) : Bool :=
  subs.any (fun sub => strHas (lowerStr p) sub)

/-- Regex fragment `api\/v\d`: `"api/v"` followed by a digit. -/
def hasApiVDigitL : List Char → Bool
  | [] => false
  | c :: rest =>
    ("api/v".data.isPrefixOf (c :: rest)
      && (match (c :: rest).drop 5 with
          | d :: _ => d.isDigit
          | [] => false))
    || hasApiVDigitL rest

/-- `HIGH_RISK_PATTERNS` of `diff-classifier.ts`, in source order. -/
def highRiskPatterns : List RiskPattern :=
  [ ⟨fun p => containsAnyCI p ["auth", "authentication", "login", "password", "secret", "token", "key", "credential"],
      "Security-sensitive code"⟩,
    ⟨fun p => containsAnyCI p ["payment", "billing", "checkout", "stripe", "paypal", "transaction"],
      "Payment processing code"⟩,
    ⟨fun p => containsAnyCI p ["database", "migration", "schema", "sql", "query"],
      "Database changes"⟩,
    ⟨fun p => containsAnyCI p ["security", "permission", "access", "rbac", "acl"],
      "Security/permission changes"⟩,
    ⟨fun p => containsAnyCI p ["config", ".env", "environment"],
      "Configuration changes"⟩,
    ⟨fun p => hasApiVDigitL (lowerStr p).data || containsAnyCI p ["breaking", "deprecat"],
      "Potential API breaking changes"⟩,
    ⟨fun p => containsAnyCI p ["crypto", "encrypt", "decrypt", "hash"],
      "Cryptography code"⟩ ]

/-- `MEDIUM_RISK_PATTERNS` of `diff-classifier.ts`, in source order. -/
def mediumRiskPatterns : List RiskPattern :=
  [ ⟨fun p => containsAnyCI p ["core", "base", "foundation", "lib/"],
      "Core library changes"⟩,
    ⟨fun p => containsAnyCI p ["interface", "type", "contract"],
      "Interface/contract changes"⟩,
    ⟨fun p => containsAnyCI p ["package.json", "yarn.lock", "package-lock"],
      "Dependency changes"⟩,
    ⟨fun p => containsAnyCI p ["ci", "cd", "workflow", "pipeline", ".github"],
      "CI/CD changes"⟩,
    ⟨fun p => containsAnyCI p ["docker", "kubernetes", "k8s", "helm"],
      "Infrastructure changes"⟩ ]

/-- `SAFE_PATTERNS` of `diff-classifier.ts`, in source order. -/
def safePatterns : List RiskPattern :=
  [ ⟨fun p => strEnds (lowerStr p) ".md" || containsAnyCI p ["readme", "docs/"],
      "Documentation"⟩,
    ⟨fun p => containsAnyCI p [".test.", ".spec.", "__tests__"],
      "Test files"⟩,
    ⟨fun p => strEnds (lowerStr p) ".snap" || containsAnyCI p ["snapshot"],
      "Snapshot files"⟩,
    ⟨fun p => strEnds (lowerStr p) ".css" || strEnds (lowerStr p) ".scss"
        || strEnds (lowerStr p) ".less" || containsAnyCI p [".styl"],
      "Style files"⟩,
    ⟨fun p => containsAnyCI p ["comment", "todo", "fixme"],
      "Comment changes"⟩ ]

/-! ### diff-classifier.ts: assessFileRisk -/

/-- Threshold-to-label map shared by the per-file and overall assessments:
`≥70` critical, `≥50` high-risk, `≥25` medium-risk, else low-risk. -/
def riskLevelOf (score : Int) : RiskLevel :=
  if score ≥ 70 then RiskLevel.critical
  else if score ≥ 50 then RiskLevel.highRisk
  else if score ≥ 25 then RiskLevel.mediumRisk
  else RiskLevel.lowRisk

/-- Coarse ordering of risk labels (low < medium < high < critical). -/
def riskRank : RiskLevel → Nat
  | RiskLevel.lowRisk => 0
  | RiskLevel.mediumRisk => 1
  | RiskLevel.highRisk => 2
  | RiskLevel.critical => 3

/-- Step 1 of `assessFileRisk`: the size-tier base score. -/
def riskSizeScore (file : DiffFile) : Int :=
  let totalChanges := file.additions + file.deletions
  if totalChanges > 500 then 30
  else if totalChanges > 200 then 20
  else if totalChanges > 50 then 10
  else 0

/-- Steps 2-3 of `assessFileRisk`: `+25` per matching high-risk pattern,
then `+15` per matching medium-risk pattern, in source order. -/
def riskAfterMedium (file : DiffFile) : Int :=
  mediumRiskPatterns.foldl (fun s p => if p.test file.path then s + 15 else s)
    (highRiskPatterns.foldl (fun s p => if p.test file.path then s + 25 else s)
      (riskSizeScore file))

/-- Step 4 of `assessFileRisk`: `score = Math.max(0, score - 20)` per
matching safe pattern, in source order. -/
def riskAfterSafe (file : DiffFile) : Int :=
  safePatterns.foldl (fun s p => if p.test file.path then max 0 (s - 20) else s)
    (riskAfterMedium file)

/-- Step 5 of `assessFileRisk`: deletion and binary-file surcharges, before
the final clamp. -/
def riskRawScore (file : DiffFile) : Int :=
  riskAfterSafe file
    + (if file.status = FileStatus.deleted then 15 else 0)
    + (if file.binary then 10 else 0)

/-- The `reasons` list of `assessFileRisk`, accumulated in rule-evaluation
order, never deduplicated. -/
def riskReasons (file : DiffFile) : List String :=
  let totalChanges := file.additions + file.deletions
  (if totalChanges > 500 then ["Large change (" ++ toString totalChanges ++ " lines)"]
   else if totalChanges > 200 then ["Significant change (" ++ toString totalChanges ++ " lines)"]
   else [])
  ++ highRiskPatterns.filterMap
      (fun p => if p.test file.path then some p.reason else Option.none)
  ++ mediumRiskPatterns.filterMap
      (fun p => if p.test file.path then some p.reason else Option.none)
  ++ safePatterns.filterMap
      (fun p => if p.test file.path then some (p.reason ++ " (lower risk)") else Option.none)
  ++ (if file.status = FileStatus.deleted then ["File deletion"] else [])
  ++ (if file.binary then ["Binary file"] else [])

/-- `assessFileRisk` of `diff-classifier.ts`: the ordered weighted rule
cascade over a single `DiffFile`, clamped to `[0, 100]` by the final
`Math.min(100, score)` (the running score never drops below `0` because the
only subtraction is floored by `Math.max(0, ·)`). -/
def assessFileRisk (file : DiffFile) : FileRisk :=
  let score := min 100 (riskRawScore file)
  { path := file.path, risk := riskLevelOf score, score := score,
    reasons := riskReasons file }

/-! ### diff-classifier.ts: classifyDiff -/

/-- The single counter each file increments in `classifyDiff`, following the
fixed priority order of path checks (the path is lowercased first). -/
def fileCategory (f : DiffFile) : String :=
  let path := lowerStr f.path
  if strHas path ".test." || strHas path ".spec." || strHas path "__tests__" then "test"
  else if strEnds path ".md" || strHas path "readme" || strHas path "docs/" then "docs"
  else if strEnds path ".css" || strEnds path ".scss" || strEnds path ".less" || strHas path ".styl" then "style"
  else if strHas path "config" || strHas path ".env" || strHas path ".yaml" || strHas path ".yml" || strEnds path ".json" then "config"
  else if strHas path "docker" || strHas path "kubernetes" || strHas path "k8s" || strHas path "helm" || strHas path "ci" || strHas path "cd" || strHas path "workflow" then "infra"
  else if strHas path "auth" || strHas path "security" || strHas path "permission" || strHas path "crypto" then "security"
  else if f.deletions > f.additions * 2 then "refactor"
  else if f.status = FileStatus.added then "feature"
  else "bugfix"

/-- The fixed enumeration order of the 9 category counters. -/
def categoryNames : List String :=
  ["feature", "bugfix", "refactor", "test", "docs", "config", "style", "infra", "security"]

/-- Counter values after the per-file loop, listed in enumeration order. -/
def categoryCounts (files : List DiffFile) : List (String × Nat) :=
  categoryNames.map (fun c => (c, files.countP (fun f => fileCategory f == c)))

/-- The `Object.entries` scan of `classifyDiff`: keep the first counter that
strictly exceeds the running maximum. -/
def pickMax : List (String × Nat) → String × Nat → String × Nat
  | [], acc => acc
  | p :: rest, acc => pickMax rest (if p.2 > acc.2 then p else acc)

/-- Winning category of `classifyDiff` (initial value `("feature", 0)`). -/
def classifyCategory (files : List DiffFile) : String :=
  (pickMax (categoryCounts files) ("feature", 0)).1

/-- Winning count of `classifyDiff`. -/
def classifyMaxCount (files : List DiffFile) : Nat :=
  (pickMax (categoryCounts files) ("feature", 0)).2

/-- Count looked up by name in the counters record. -/
def countOf (files : List DiffFile) (c : String) : Nat :=
  files.countP (fun f => fileCategory f == c)

/-- `getSubcategory` of `diff-classifier.ts`. -/
def getSubcategory (category : String) (files : List DiffFile) : Option String :=
  let paths := String.intercalate " " (files.map (fun f => lowerStr f.path))
  if category = "feature" then
    if strHas paths "api" then some "api"
    else if strHas paths "ui" || strHas paths "component" || strHas paths "page" then some "frontend"
    else if strHas paths "model" || strHas paths "database" then some "backend"
    else Option.none
  else if category = "bugfix" then
    if strHas paths "security" || strHas paths "auth" then some "security-fix"
    else if strHas paths "performance" || strHas paths "perf" then some "performance-fix"
    else Option.none
  else if category = "infra" then
    if strHas paths "docker" then some "containerization"
    else if strHas paths "ci" || strHas paths "cd" || strHas paths "workflow" then some "ci-cd"
    else if strHas paths "kubernetes" || strHas paths "k8s" then some "kubernetes"
    else Option.none
  else Option.none

/-- `generateClassificationReasoning` of `diff-classifier.ts`. -/
def generateClassificationReasoning (category : String) (files : List DiffFile) : String :=
  let total := files.length
  let testCount := countOf files "test"
  let docsCount := countOf files "docs"
  let addedCount := (files.filter (fun f => f.status = FileStatus.added)).length
  let deletedCount := (files.filter (fun f => f.status = FileStatus.deleted)).length
  let parts : List String :=
    [toString total ++ " file(s) changed."]
    ++ (if testCount > 0 then [toString testCount ++ " test file(s)."] else [])
    ++ (if docsCount > 0 then [toString docsCount ++ " documentation file(s)."] else [])
    ++ (if addedCount > 0 then [toString addedCount ++ " new file(s) added."] else [])
    ++ (if deletedCount > 0 then [toString deletedCount ++ " file(s) deleted."] else [])
    ++ ["Classified as " ++ category ++ " based on change patterns."]
  String.intercalate " " parts

/-- `classifyDiff` of `diff-classifier.ts`. -/
def classifyDiff (files : List DiffFile) : DiffClassification :=
  let category := classifyCategory files
  let maxCount := classifyMaxCount files
  let total : Nat := (categoryCounts files).foldl (fun a p => a + p.2) 0
  let confidence : ℚ :=
    if total > 0 then min 0.95 ((maxCount : ℚ) / (total : ℚ) + 0.2) else 0.5
  { category := category,
    subcategory := getSubcategory category files,
    confidence := confidence,
    reasoning := generateClassificationReasoning category files }

/-! ### diff-classifier.ts: getGitDiffNumstat -/

/-- Non-empty-line filter (`.filter(Boolean)`). -/
def nonEmptyStr (l : String) : Bool := !(l == "")

/-- Parse the combined `--numstat` and `--name-status` outputs into
`DiffFile` records (the success path of `getGitDiffNumstat`). -/
def gitNumstatFiles (numstat nameStatus : String) : List DiffFile :=
  let numstatLines := (splitStr (trimStr numstat) "\n").filter nonEmptyStr
  let statusPairs : List (String × String) :=
    ((splitStr (trimStr nameStatus) "\n").filter nonEmptyStr).filterMap (fun line =>
      let parts := splitStr line "\t"
      if parts.length ≥ 2 then
        some ((if parts.length = 3 then parts.getD 2 "" else parts.getD 1 ""), parts.getD 0 "")
      else Option.none)
  numstatLines.filterMap (fun line =>
    let parts := splitStr line "\t"
    if parts.length ≥ 3 then
      let a := parts.getD 0 ""
      let b := parts.getD 1 ""
      let path := parts.getD 2 ""
      let additions := if a == "-" then 0 else natOfParseInt a
      let deletions := if b == "-" then 0 else natOfParseInt b
      let binary := a == "-" && b == "-"
      -- Map.get after repeated Map.set: the last insertion for a path wins.
      let statusCode := ((statusPairs.reverse.find? (fun pr => pr.1 == path)).map Prod.snd).getD "M"
      let status :=
        if strStarts statusCode "A" then FileStatus.added
        else if strStarts statusCode "D" then FileStatus.deleted
        else if strStarts statusCode "R" then FileStatus.renamed
        else FileStatus.modified
      some { path := path, status := status, additions := additions, deletions := deletions,
             hunks := 1, binary := binary, oldPath := Option.none }
    else Option.none)

/-- `getGitDiffNumstat` of `diff-classifier.ts`.  The two `execSync` git
queries are modelled by their results: `Except.error` is a failing
invocation, whose message the surrounding `catch` wraps and rethrows. -/
def getGitDiffNumstat (numstatRes nameStatusRes : Except String String) :
    Except String (List DiffFile) :=
  match numstatRes with
  | Except.error e => Except.error ("Failed to get git diff numstat: " ++ e)
  | Except.ok ns =>
    match nameStatusRes with
    | Except.error e => Except.error ("Failed to get git diff numstat: " ++ e)
    | Except.ok sts => Except.ok (gitNumstatFiles ns sts)

/-! ### coverage-router.ts: report discovery -/

/-- The three conventional LCOV locations, in source order. -/
def lcovPaths (projectRoot : String) : List String :=
  [ pathJoin (pathJoin projectRoot "coverage") "lcov.info",
    pathJoin projectRoot "lcov.info",
    pathJoin (pathJoin (pathJoin projectRoot "coverage") "lcov-report") "lcov.info" ]

/-- The three conventional Istanbul/c8 JSON locations, in source order. -/
def summaryPaths (projectRoot : String) : List String :=
  [ pathJoin (pathJoin projectRoot "coverage") "coverage-summary.json",
    pathJoin (pathJoin projectRoot "coverage") "coverage-final.json",
    pathJoin (pathJoin projectRoot ".nyc_output") "coverage-summary.json" ]

/-- All conventional report locations probed by `findCoverageReports`. -/
def conventionalCoveragePaths (projectRoot : String) : List String :=
  lcovPaths projectRoot ++ summaryPaths projectRoot

/-- `findCoverageReports` of `coverage-router.ts`. -/
def findCoverageReports (fs : FS) (projectRoot : String) : List (CovFormat × String) :=
  ((lcovPaths projectRoot).filter (fun p => (fs p).isSome)).map (fun p => (CovFormat.lcov, p))
  ++ ((summaryPaths projectRoot).filter (fun p => (fs p).isSome)).map
      (fun p => (if strHas p ".nyc_output" then CovFormat.istanbul else CovFormat.c8, p))

/-! ### coverage-router.ts: LCOV parser -/

/-- Trimmed, non-empty lines of one LCOV record. -/
def recLines (record : String) : List String :=
  ((splitStr record "\n").map trimStr).filter nonEmptyStr

def isDA (l : String) : Bool := strStarts l "DA:"

def isBRDA (l : String) : Bool := strStarts l "BRDA:"

def isFNDA (l : String) : Bool := strStarts l "FNDA:"

/-- `line.substring(3).split(',').map(Number)` of a `DA:` line. -/
def daParts (l : String) : List (Option ℚ) :=
  (splitStr (strDrop 3 l) ",").map jsNumber

/-- The hit count of a `DA:` line (`none` models `NaN`/`undefined`). -/
def daHitCount (l : String) : Option ℚ := (daParts l).getD 1 Option.none

/-- The line number of a `DA:` line. -/
def daLineNum (l : String) : Option ℚ := (daParts l).getD 0 Option.none

/-- The comma fields of a `BRDA:` line after `substring(5)`. -/
def brdaParts (l : String) : List String := splitStr (strDrop 5 l) ","

/-- `parts[3] === '-' ? 0 : parseInt(parts[3], 10)` of a `BRDA:` line. -/
def brdaHitCount (l : String) : Option ℚ :=
  match (brdaParts l).get? 3 with
  | some "-" => some 0
  | some s => (jsParseInt s).map (fun i => (i : ℚ))
  | Option.none => Option.none

/-- `parseInt(parts[0], 10)` of a `BRDA:` line. -/
def brdaLineNum (l : String) : Option ℚ :=
  (jsParseInt ((brdaParts l).getD 0 "")).map (fun i => (i : ℚ))

/-- The comma fields of an `FNDA:` line after `substring(5)`. -/
def fndaParts (l : String) : List String := splitStr (strDrop 5 l) ","

/-- `parseInt(hitCount, 10)` of an `FNDA:` line. -/
def fndaHitCount (l : String) : Option ℚ :=
  (jsParseInt ((fndaParts l).getD 0 "")).map (fun i => (i : ℚ))

/-- The function name of an `FNDA:` line (a missing field, `undefined` in
JavaScript, is modelled as the empty string). -/
def fndaName (l : String) : String := (fndaParts l).getD 1 ""

/-- `DA:` percentage of one record's lines (`(hits found > 0 ? hit / found *
100 : 100)` — the vacuous-pass branch of the source). -/
def lcovLinePct (lines : List String) : ℚ :=
  if lines.countP isDA > 0 then
    ((lines.countP (fun l => isDA l && optGtZero (daHitCount l)) : ℚ)
      / (lines.countP isDA : ℚ)) * 100
  else 100

/-- `BRDA:` percentage of one record's lines. -/
def lcovBranchPct (lines : List String) : ℚ :=
  if lines.countP isBRDA > 0 then
    ((lines.countP (fun l => isBRDA l && optGtZero (brdaHitCount l)) : ℚ)
      / (lines.countP isBRDA : ℚ)) * 100
  else 100

/-- `FNDA:` percentage of one record's lines. -/
def lcovFnPct (lines : List String) : ℚ :=
  if lines.countP isFNDA > 0 then
    ((lines.countP (fun l => isFNDA l && optGtZero (fndaHitCount l)) : ℚ)
      / (lines.countP isFNDA : ℚ)) * 100
  else 100

/-- The coverage record built for one LCOV record: each mutable counter of
the source loop equals the corresponding count or `filterMap` over the
record's trimmed lines. -/
def lcovRecordOf (lines : List String) (sfLine : String) : CoverageData :=
  { filePath := strDrop 3 sfLine,
    lineCoverage := lcovLinePct lines,
    branchCoverage := lcovBranchPct lines,
    functionCoverage := lcovFnPct lines,
    statementCoverage := lcovLinePct lines,
    uncoveredLines := lines.filterMap (fun l =>
      if isDA l && !optGtZero (daHitCount l) then some (daLineNum l) else Option.none),
    uncoveredBranches := lines.filterMap (fun l =>
      if isBRDA l && !optGtZero (brdaHitCount l) then
        some { line := brdaLineNum l, column := Option.none, type := "unknown" : UncoveredBranch }
      else Option.none),
    uncoveredFunctions := lines.filterMap (fun l =>
      if isFNDA l && !optGtZero (fndaHitCount l) then some (fndaName l) else Option.none),
    totalLines := match (lines.filter (fun l => strStarts l "LF:")).getLast? with
      | some l => natOfParseInt (strDrop 3 l)
      | Option.none => 0,
    coveredLines := match (lines.filter (fun l => strStarts l "LH:")).getLast? with
      | some l => natOfParseInt (strDrop 3 l)
      | Option.none => 0 }

/-- One iteration group of the `parseLcov` record loop: skip blank records
and records without an `SF:` line. -/
def parseLcovRecord (record : String) : Option CoverageData :=
  if trimStr record = "" then Option.none
  else
    match (recLines record).find? (fun l => strStarts l "SF:") with
    | Option.none => Option.none
    | some sfLine => some (lcovRecordOf (recLines record) sfLine)

/-- `parseLcov` of `coverage-router.ts`: split on `end_of_record`, parse
each record, skipping blank records and records without an `SF:` line. -/
def parseLcov (content : String) : List CoverageData :=
  (splitStr content "end_of_record").filterMap parseLcovRecord

/-! ### coverage-router.ts: Istanbul/c8 JSON parser -/

/-- JSON value tree (the result of `JSON.parse`). -/
inductive Json
  | null
  | bool (b : Bool)
  | num (q : ℚ)
  | str (s : String)
  | arr (elems : List Json)
  | obj (fields : List (String × Json))

def jIsNull : Json → Bool
  | Json.null => true
  | _ => false

/-- JavaScript truthiness of a JSON value. -/
def jtruthy : Json → Bool
  | Json.null => false
  | Json.bool b => b
  | Json.num q => !(q == 0)
  | Json.str s => !(s == "")
  | Json.arr _ => true
  | Json.obj _ => true

/-- Decimal-digit key, for array/string indexing. -/
def natKey (k : String) : Option Nat :=
  if k.data ≠ [] ∧ k.data.all Char.isDigit then
    let (v, _, _) := readDigits k.data 0 0
    some v
  else Option.none

/-- JavaScript property access `j[k]` on a non-nullish value: object field
lookup, array/string numeric indexing; `none` models `undefined`. -/
def jget (j : Json) (k : String) : Option Json :=
  match j with
  | Json.obj fields => (fields.find? (fun p => p.1 == k)).map (fun p => p.2)
  | Json.arr es =>
    match natKey k with
    | some i => es.get? i
    | Option.none => Option.none
  | Json.str s =>
    match natKey k with
    | some i => (s.data.get? i).map (fun c => Json.str (String.mk [c]))
    | Option.none => Option.none
  | _ => Option.none

/-- Property access whose missing (`undefined`) case is normalised to
`Json.null`: both are falsy, which is all the guards below inspect. -/
def jfield (j : Json) (k : String) : Json := (jget j k).getD Json.null

/-- Collapse a nullish (`null`/`undefined`) result, as `?.` and `??` do. -/
def nonNullish : Option Json → Option Json
  | some Json.null => Option.none
  | some v => some v
  | Option.none => Option.none

/-- `Object.entries(j)` for a non-nullish `j`: object fields, array
elements under their indices, string characters under their indices,
nothing for primitives. -/
def jentries : Json → List (String × Json)
  | Json.obj fields => fields
  | Json.arr es => es.enum.map (fun ie => (toString ie.1, ie.2))
  | Json.str s => s.data.enum.map (fun ic => (toString ic.1, Json.str (String.mk [ic.2])))
  | _ => []

/-- Numeric value of a JSON leaf, if it is a number. -/
def jnum : Json → Option ℚ
  | Json.num q => some q
  | _ => Option.none

/-- Coercion of a JSON value stored into a numeric field of the record (a
non-number, possible only for malformed reports, is modelled as `0`). -/
def qOfJson (j : Json) : ℚ := (jnum j).getD 0

/-- Coercion to a non-negative count (see `qOfJson`). -/
def natOfJson (o : Option Json) : Nat :=
  match o with
  | some (Json.num q) => q.floor.toNat
  | _ => 0

/-- Coercion of a JSON value stored into a string field (a truthy
non-string is collapsed to its fallback tag). -/
def jstrCoerce (j : Json) : String :=
  match j with
  | Json.str s => s
  | _ => ""

/-- JavaScript `hitCount > 0` over a JSON value (`ToNumber` coercion for
strings and booleans; object/array coercion, which never yields a finite
positive number for the shapes at hand, is modelled as `false`). -/
def jGtZero : Json → Bool
  | Json.num q => q > 0
  | Json.str s => optGtZero (jsNumber s)
  | Json.bool b => b
  | _ => false

/-- Hit-count test on one `Object.entries` pair. -/
def entryGtZero (e : String × Json) : Bool := jGtZero e.2

/-- The summary-shape guard
`fileData.lines && typeof fileData.lines.pct === 'number'`. -/
def summaryCond (fd : Json) : Bool :=
  match jget fd "lines" with
  | some lv =>
    jtruthy lv &&
      (match jget lv "pct" with
       | some (Json.num _) => true
       | _ => false)
  | Option.none => false

/-- `stmtInfo?.start?.line` for one uncovered statement entry: pushed only
when truthy; the pushed value coerced as in `CoverageData.uncoveredLines`. -/
def stmtUncLine (sm : Json) (e : String × Json) : Option (Option ℚ) :=
  if jGtZero e.2 then Option.none
  else
    match nonNullish (jget sm e.1) with
    | Option.none => Option.none
    | some si =>
      match nonNullish (jget si "start") with
      | Option.none => Option.none
      | some st =>
        match jget st "line" with
        | some v => if jtruthy v then some (jnum v) else Option.none
        | Option.none => Option.none

/-- `fnMap[fnId]?.name` for one uncovered function entry. -/
def fnUncName (fm : Json) (e : String × Json) : Option String :=
  if jGtZero e.2 then Option.none
  else
    match nonNullish (jget fm e.1) with
    | Option.none => Option.none
    | some fi =>
      match jget fi "name" with
      | some v => if jtruthy v then some (jstrCoerce v) else Option.none
      | Option.none => Option.none

/-- `branchMap[branchId]` push for one uncovered branch hit. -/
def branchUnc (bm : Json) (bid : String) : Option UncoveredBranch :=
  match jget bm bid with
  | some bi =>
    if jtruthy bi then
      some { line := (jget bi "line").bind jnum,
             column := Option.none,
             type := match jget bi "type" with
                     | some v => if jtruthy v then (match v with
                                  | Json.str s => s
                                  | _ => "unknown") else "unknown"
                     | Option.none => "unknown" }
    else Option.none
  | Option.none => Option.none

/-- Values produced by `for (const hitCount of hits)`: arrays iterate their
elements, strings their characters; any other value raises `TypeError`
(modelled by `none`). -/
def iterVals : Json → Option (List Json)
  | Json.arr es => some es
  | Json.str s => some (s.data.map (fun c => Json.str (String.mk [c])))
  | _ => Option.none

/-- The branch-coverage loop of the detailed shape: totals, covered count
and uncovered-branch pushes, or `none` when iterating some hits value
throws. -/
def collectBranches (bm : Json) : List (String × Json) → Option (Nat × Nat × List UncoveredBranch)
  | [] => some (0, 0, [])
  | (bid, hits) :: rest =>
    match iterVals hits with
    | Option.none => Option.none
    | some vs =>
      match collectBranches bm rest with
      | Option.none => Option.none
      | some (t, c, ubs) =>
        some (vs.length + t, vs.countP jGtZero + c,
          (vs.filterMap (fun v => if jGtZero v then Option.none else branchUnc bm bid)) ++ ubs)

/-- Ascending order used to model `.sort((a, b) => a - b)` on the uncovered
line numbers (`none`, the `NaN` sentinel, ordered first; the JavaScript
comparator leaves `NaN` placement unspecified). -/
def ascLine (a b : Option ℚ) : Prop :=
  match a, b with
  | Option.none, _ => True
  | some _, Option.none => False
  | some x, some y => x ≤ y

instance : DecidableRel ascLine := fun a b => by
  unfold ascLine
  cases a <;> cases b <;> infer_instance

/-- Outcome of processing one `Object.entries` pair of the parsed report. -/
inductive EntryStep
  | thrown
  | skip
  | push (d : CoverageData)
deriving DecidableEq

/-- `fileData.path || filePath`. -/
def istanbulPath (filePath : String) (fd : Json) : String :=
  match jget fd "path" with
  | some v => if jtruthy v then jstrCoerce v else filePath
  | Option.none => filePath

/-- The record pushed for a summary-shape entry: the precomputed `pct`
values are copied verbatim; missing `statements` falls back to the lines
percentage, missing `branches`/`functions` to 100. -/
def istanbulSummaryRecord (filePath : String) (fd : Json) : CoverageData :=
  let lv := jfield fd "lines"
  let linepct := ((jget lv "pct").bind jnum).getD 0
  { filePath := istanbulPath filePath fd,
    lineCoverage := linepct,
    branchCoverage :=
      match nonNullish ((nonNullish (jget fd "branches")).bind (fun bv => jget bv "pct")) with
      | some v => qOfJson v
      | Option.none => 100,
    functionCoverage :=
      match nonNullish ((nonNullish (jget fd "functions")).bind (fun fv => jget fv "pct")) with
      | some v => qOfJson v
      | Option.none => 100,
    statementCoverage :=
      match nonNullish ((nonNullish (jget fd "statements")).bind (fun sv => jget sv "pct")) with
      | some v => qOfJson v
      | Option.none => linepct,
    uncoveredLines := [],
    uncoveredBranches := [],
    uncoveredFunctions := [],
    totalLines := natOfJson (jget lv "total"),
    coveredLines := natOfJson (jget lv "covered") }

/-- Result of the statement block of the detailed shape: totals, covered
count, uncovered-line pushes and percentage (fields keep their `0`/empty
defaults when the guard `fileData.s && fileData.statementMap` is falsy). -/
structure StmtPart where
  total : Nat
  covered : Nat
  unc : List (Option ℚ)
  pct : ℚ
deriving DecidableEq, Repr

def istanbulStmtPart (fd : Json) : StmtPart :=
  if jtruthy (jfield fd "s") && jtruthy (jfield fd "statementMap") then
    let es := jentries (jfield fd "s")
    { total := es.length,
      covered := es.countP entryGtZero,
      unc := es.filterMap (stmtUncLine (jfield fd "statementMap")),
      pct := if es.length > 0 then
          ((es.countP entryGtZero : ℚ) / (es.length : ℚ)) * 100
        else 100 }
  else { total := 0, covered := 0, unc := [], pct := 0 }

/-- Result of the function block of the detailed shape. -/
structure FnPart where
  unc : List String
  pct : ℚ
deriving DecidableEq, Repr

def istanbulFnPart (fd : Json) : FnPart :=
  if jtruthy (jfield fd "f") && jtruthy (jfield fd "fnMap") then
    let es := jentries (jfield fd "f")
    { unc := es.filterMap (fnUncName (jfield fd "fnMap")),
      pct := if es.length > 0 then
          ((es.countP entryGtZero : ℚ) / (es.length : ℚ)) * 100
        else 100 }
  else { unc := [], pct := 0 }

/-- Result of the branch block of the detailed shape: `none` when iterating
some hits value throws a `TypeError`. -/
def istanbulBranchPart (fd : Json) : Option (ℚ × List UncoveredBranch) :=
  if jtruthy (jfield fd "b") && jtruthy (jfield fd "branchMap") then
    match collectBranches (jfield fd "branchMap") (jentries (jfield fd "b")) with
    | Option.none => Option.none
    | some (t, c, ubs) =>
      some ((if t > 0 then ((c : ℚ) / (t : ℚ)) * 100 else 100), ubs)
  else some (0, [])

/-- The body of the `parseIstanbulJson` per-file loop. -/
def processIstanbulEntry (filePath : String) (fd : Json) : EntryStep :=
  if filePath == "total" then EntryStep.skip
  else if jIsNull fd then EntryStep.thrown
  else if summaryCond fd then
    EntryStep.push (istanbulSummaryRecord filePath fd)
  else
    let sp := istanbulStmtPart fd
    match istanbulBranchPart fd with
    | Option.none => EntryStep.thrown
    | some bp =>
      let fp := istanbulFnPart fd
      EntryStep.push
        { filePath := istanbulPath filePath fd,
          lineCoverage := sp.pct,
          branchCoverage := bp.1,
          functionCoverage := fp.pct,
          statementCoverage := sp.pct,
          uncoveredLines := List.insertionSort ascLine (dedupFirst sp.unc),
          uncoveredBranches := bp.2,
          uncoveredFunctions := fp.unc,
          totalLines := sp.total,
          coveredLines := sp.covered }

/-- Run the per-file loop: a thrown exception is caught by the surrounding
`catch`, which returns the files already pushed. -/
def istanbulEntriesGo : List (String × Json) → List CoverageData
  | [] => []
  | (k, v) :: rest =>
    match processIstanbulEntry k v with
    | EntryStep.thrown => []
    | EntryStep.skip => istanbulEntriesGo rest
    | EntryStep.push d => d :: istanbulEntriesGo rest

/-- `parseIstanbulJson` of `coverage-router.ts`, over the modelled result of
`JSON.parse`: a parse exception yields `[]`; a top-level `null` makes
`Object.entries` throw with no file pushed yet, also yielding `[]`. -/
def parseIstanbulJson (input : Except String Json) : List CoverageData :=
  match input with
  | Except.error _ => []
  | Except.ok j =>
    match j with
    | Json.null => []
    | _ => istanbulEntriesGo (jentries j)

/-! ### coverage-router.ts: loadCoverageData -/

/-- `JSON.parse` oracle (text-level JSON parsing is out of scope). -/
def JParse : Type := String → Except String Json

/-- Result of `loadCoverageData`. -/
structure LoadedCoverage where
  data : List CoverageData
  format : CovFormat
  reportPath : Option String
deriving DecidableEq, Repr

/-- `loadCoverageData` of `coverage-router.ts`: prefer lcov, fall back to
istanbul/c8, return the empty set with format `none` when nothing exists. -/
def loadCoverageData (fs : FS) (jp : JParse) (projectRoot : String) : LoadedCoverage :=
  let reports := findCoverageReports fs projectRoot
  if reports.length = 0 then
    { data := [], format := CovFormat.none, reportPath := Option.none }
  else
    match reports.find? (fun r => r.1 == CovFormat.lcov) with
    | some r =>
      { data := parseLcov ((fs r.2).getD ""), format := CovFormat.lcov, reportPath := some r.2 }
    | Option.none =>
      match reports.find? (fun r => r.1 == CovFormat.istanbul || r.1 == CovFormat.c8) with
      | some r =>
        { data := parseIstanbulJson (jp ((fs r.2).getD "")), format := r.1, reportPath := some r.2 }
      | Option.none =>
        { data := [], format := CovFormat.none, reportPath := Option.none }

/-! ### coverage-router.ts: calculateComplexity -/

/-- The control-flow keywords of the `calculateComplexity` regex. -/
def cfKeywords : List (List Char) :=
  ["if".data, "else".data, "switch".data, "case".data, "for".data,
   "while".data, "do".data, "try".data, "catch".data, "throw".data]

/-- A keyword matches at the head of `s` with a trailing word boundary. -/
def kwAt (s : List Char) (kw : List Char) : Bool :=
  kw.isPrefixOf s
    && (match s.drop kw.length with
        | [] => true
        | c :: _ => !isWordChar c)

/-- Count the matches of `/\b(if|else|switch|case|for|while|do|try|catch|throw)\b/g`:
scan left to right, requiring a word boundary on both sides, resuming after
each match as the `g` flag does. -/
def countCFAux : Nat → Bool → List Char → Nat
  | 0, _, _ => 0
  | _ + 1, _, [] => 0
  | fuel + 1, prevWord, c :: rest =>
    match (if prevWord then Option.none else cfKeywords.find? (kwAt (c :: rest))) with
    | some kw => 1 + countCFAux fuel true ((c :: rest).drop kw.length)
    | Option.none => countCFAux fuel (isWordChar c) rest

def countControlFlow (content : List Char) : Nat :=
  countCFAux (content.length + 1) false content

/-- `(count, rest)` of the leading whitespace run (`\s*` / `\s+`). -/
def spanWs : List Char → Nat × List Char
  | [] => (0, [])
  | c :: r =>
    if c.isWhitespace then
      let (n, rest) := spanWs r
      (n + 1, rest)
    else (0, c :: r)

/-- `(count, rest)` of the leading word-character run (`\w*` / `\w+`). -/
def spanWord : List Char → Nat × List Char
  | [] => (0, [])
  | c :: r =>
    if isWordChar c then
      let (n, rest) := spanWord r
      (n + 1, rest)
    else (0, c :: r)

/-- Length consumed by `const\s+\w+\s*=\s*(async\s+)?\(` at the head of `s`,
if it matches (greedy matching is exact here: the `\s`/`\w` classes are
disjoint from the literals that follow them). -/
def constDeclAt (s : List Char) : Option Nat :=
  if "const".data.isPrefixOf s then
    let r1 := s.drop 5
    let (w1, r2) := spanWs r1
    if w1 = 0 then Option.none
    else
      let (w2, r3) := spanWord r2
      if w2 = 0 then Option.none
      else
        let (w3, r4) := spanWs r3
        match r4 with
        | '=' :: r5 =>
          let (w4, r6) := spanWs r5
          let consumed := 5 + w1 + w2 + w3 + 1 + w4
          if "async".data.isPrefixOf r6 then
            let r7 := r6.drop 5
            let (w5, r8) := spanWs r7
            if w5 > 0 then
              match r8 with
              | '(' :: _ => some (consumed + 5 + w5 + 1)
              | _ => match r6 with
                     | '(' :: _ => some (consumed + 1)
                     | _ => Option.none
            else match r6 with
                 | '(' :: _ => some (consumed + 1)
                 | _ => Option.none
          else match r6 with
               | '(' :: _ => some (consumed + 1)
               | _ => Option.none
        | _ => Option.none
  else Option.none

/-- Length consumed by `=>\s*\x7b` at the head of `s`, if it matches. -/
def arrowDeclAt (s : List Char) : Option Nat :=
  if "=>".data.isPrefixOf s then
    let (w, r) := spanWs (s.drop 2)
    match r with
    | '{' :: _ => some (2 + w + 1)
    | _ => Option.none
  else Option.none

/-- Match of `\b(class|function|const\s+\w+\s*=\s*(async\s+)?\(|=>\s*\x7b)`
at the head of `s` (`prevWord` tells whether the preceding character is a
word character, which decides the `\b`): returns the consumed length. -/
def declMatchAt (prevWord : Bool) (s : List Char) : Option Nat :=
  if !prevWord && "class".data.isPrefixOf s then some 5
  else if !prevWord && "function".data.isPrefixOf s then some 8
  else if !prevWord then constDeclAt s
  else arrowDeclAt s

/-- Count the matches of the declaration regex of `calculateComplexity`. -/
def countDeclAux : Nat → Bool → List Char → Nat
  | 0, _, _ => 0
  | _ + 1, _, [] => 0
  | fuel + 1, prevWord, c :: rest =>
    match declMatchAt prevWord (c :: rest) with
    | some n =>
      1 + countDeclAux fuel (isWordChar ((c :: rest).getD (n - 1) ' ')) ((c :: rest).drop n)
    | Option.none => countDeclAux fuel (isWordChar c) rest

def countDecls (content : List Char) : Nat :=
  countDeclAux (content.length + 1) false content

/-- `calculateComplexity` of `coverage-router.ts` (1-10 heuristic from line
count, control-flow keyword density and declaration density; a missing or
unreadable file scores 1). -/
def calculateComplexity (fs : FS) (filePath projectRoot : String) : Nat :=
  let fullPath := pathJoin projectRoot filePath
  match fs fullPath with
  | Option.none => 1
  | some content =>
    let lineCount := (splitStr content "\n").length
    let c1 := 1 + (if lineCount > 500 then 3 else if lineCount > 200 then 2
                   else if lineCount > 100 then 1 else 0)
    let cf := countControlFlow content.data
    let c2 := c1 + (if cf > 0 then min 5 (cf / 10) else 0)
    let dc := countDecls content.data
    let c3 := c2 + (if dc > 0 then min 3 (dc / 5) else 0)
    min 10 c3

/-! ### coverage-router.ts: gap analysis -/

/-- `determineGapType` of `coverage-router.ts`. -/
def determineGapType (coverage : ℚ) : GapKind :=
  if coverage < 20 then GapKind.critical
  else if coverage < 50 then GapKind.high
  else if coverage < 70 then GapKind.medium
  else GapKind.low

/-- The `extAgentMap` lookup with its `['coder', 'tester']` fallback. -/
def extAgents (ext : String) : List String :=
  if ext == ".ts" then ["coder", "tester", "reviewer"]
  else if ext == ".tsx" then ["coder", "tester", "reviewer"]
  else if ext == ".js" then ["coder", "tester"]
  else if ext == ".jsx" then ["coder", "tester"]
  else if ext == ".py" then ["coder", "tester", "ml-developer"]
  else if ext == ".go" then ["coder", "tester"]
  else if ext == ".rs" then ["coder", "tester", "performance-engineer"]
  else ["coder", "tester"]

/-- `suggestAgentsForFile` of `coverage-router.ts`.  Test-named files return
`[tester, reviewer]` directly; every other path is deduplicated (keeping
first occurrences) and capped at 4. -/
def suggestAgentsForFile (filePath : String) (coverageData : CoverageData)
    (gapType : GapKind) : List String :=
  let ext := lowerStr (extnameOf filePath)
  let fileName := lowerStr (basenameOf filePath)
  if strHas fileName ".test." || strHas fileName ".spec." then ["tester", "reviewer"]
  else
    let base :=
      if strHas filePath "/api/" || strHas filePath "/routes/" then
        ["coder", "tester", "security-architect"]
      else if strHas filePath "/auth/" || strHas filePath "security" then
        ["security-architect", "tester", "coder"]
      else if strHas filePath "/utils/" || strHas filePath "/helpers/" then
        ["coder", "tester"]
      else if strHas filePath "/services/" then
        ["coder", "tester", "architect"]
      else extAgents ext
    let a1 := if gapType = GapKind.critical && !(base.contains "reviewer")
      then base ++ ["reviewer"] else base
    let a2 := if coverageData.uncoveredBranches.length > 5 && !(a1.contains "architect")
      then a1 ++ ["architect"] else a1
    (dedupFirst a2).take 4

/-- `calculatePriority` of `coverage-router.ts`. -/
def calculatePriority (coverageData : CoverageData) (complexity : Nat)
    (gapType : GapKind) : ℚ :=
  let base : ℚ := match gapType with
    | GapKind.critical => 100
    | GapKind.high => 75
    | GapKind.medium => 50
    | GapKind.low => 25
  let p1 := base + (complexity : ℚ) * 3
  let uncoveredRatio : ℚ :=
    (coverageData.uncoveredLines.length : ℚ) / ((max 1 coverageData.totalLines : Nat) : ℚ)
  let p2 := p1 + min 20 (uncoveredRatio * 50)
  let p3 := p2 + (if coverageData.branchCoverage < 50 then 15
                  else if coverageData.branchCoverage < 75 then 8 else 0)
  let fileName := basenameOf coverageData.filePath
  let p4 := p3 + (if strHas fileName "service" || strHas fileName "controller" then 10 else 0)
  let p5 := p4 + (if strHas fileName "auth" || strHas fileName "security" then 15 else 0)
  min 200 p5

/-- Mean of the four coverage percentages of one record. -/
def mean4 (d : CoverageData) : ℚ :=
  (d.lineCoverage + d.branchCoverage + d.functionCoverage + d.statementCoverage) / 4

/-- Below-threshold test on one record. -/
def belowThr (threshold : ℚ) (d : CoverageData) : Bool := decide (mean4 d < threshold)

/-- The gap record pushed by `analyzeCoverageGaps` for one below-threshold
coverage record. -/
def mkCoverageGap (fs : FS) (projectRoot : String) (threshold : ℚ)
    (d : CoverageData) : CoverageGap :=
  let avgCoverage := mean4 d
  let gapType := determineGapType avgCoverage
  let complexity := calculateComplexity fs d.filePath projectRoot
  let suggestedAgents := suggestAgentsForFile d.filePath d gapType
  let priority := calculatePriority d complexity gapType
  let reasons : List String :=
    (if d.lineCoverage < threshold then
      ["line coverage " ++ toFixed1 d.lineCoverage ++ "%"] else [])
    ++ (if d.branchCoverage < threshold then
      ["branch coverage " ++ toFixed1 d.branchCoverage ++ "%"] else [])
    ++ (if d.uncoveredFunctions.length > 0 then
      [toString d.uncoveredFunctions.length ++ " uncovered functions"] else [])
  { filePath := d.filePath,
    coveragePercent := avgCoverage,
    gapType := gapType,
    complexity := complexity,
    priority := priority,
    suggestedAgents := suggestedAgents,
    uncoveredLines := d.uncoveredLines.take 20,
    reason := if reasons = [] then "Below threshold" else String.intercalate ", " reasons }

/-- Non-increasing priority order used to model the stable JavaScript sort
`gaps.sort((a, b) => b.priority - a.priority)`. -/
def priorityGE (a b : CoverageGap) : Prop := b.priority ≤ a.priority

instance : DecidableRel priorityGE := fun a b =>
  (inferInstance : Decidable (b.priority ≤ a.priority))

instance : IsTotal CoverageGap priorityGE :=
  ⟨fun a b => le_total b.priority a.priority⟩

instance : IsTrans CoverageGap priorityGE :=
  ⟨fun _ _ _ hab hbc => le_trans hbc hab⟩

/-- `analyzeCoverageGaps` of `coverage-router.ts`: skip records whose
4-metric mean meets the threshold, build a gap for the rest, sort by
descending priority (stable). -/
def analyzeCoverageGaps (fs : FS) (coverageData : List CoverageData)
    (projectRoot : String) (threshold : ℚ) : List CoverageGap :=
  let gaps := coverageData.filterMap (fun d =>
    if mean4 d ≥ threshold then Option.none
    else some (mkCoverageGap fs projectRoot threshold d))
  List.insertionSort priorityGE gaps

/-- `generateCoverageSummary` of `coverage-router.ts`. -/
def generateCoverageSummary (coverageData : List CoverageData)
    (threshold : ℚ) : CoverageSummary :=
  if coverageData.length = 0 then
    { totalFiles := 0,
      overallLineCoverage := 0,
      overallBranchCoverage := 0,
      overallFunctionCoverage := 0,
      overallStatementCoverage := 0,
      filesBelowThreshold := 0,
      coverageThreshold := threshold }
  else
    let fileCount := coverageData.length
    let sumLine := coverageData.foldl (fun a d => a + d.lineCoverage) 0
    let sumBranch := coverageData.foldl (fun a d => a + d.branchCoverage) 0
    let sumFunction := coverageData.foldl (fun a d => a + d.functionCoverage) 0
    let sumStatement := coverageData.foldl (fun a d => a + d.statementCoverage) 0
    { totalFiles := fileCount,
      overallLineCoverage := sumLine / (fileCount : ℚ),
      overallBranchCoverage := sumBranch / (fileCount : ℚ),
      overallFunctionCoverage := sumFunction / (fileCount : ℚ),
      overallStatementCoverage := sumStatement / (fileCount : ℚ),
      filesBelowThreshold := (coverageData.filter (belowThr threshold)).length,
      coverageThreshold := threshold }

/-! ### coverage-router.ts: coverageRoute -/

/-- Gap classified critical or high. -/
def isCriticalOrHigh (g : CoverageGap) : Bool :=
  g.gapType == GapKind.critical || g.gapType == GapKind.high

/-- Gap classified critical. -/
def isCriticalGap (g : CoverageGap) : Bool := g.gapType == GapKind.critical

/-- The routing block of `coverageRoute` (source lines 800-828): default
`coder`/0.75; inside the non-empty-gaps branch, a critical/high gap
promotes its top suggested agent to 0.85, and the task-keyword overrides
apply last.  The keyword overrides are *inside* the non-empty-gaps branch. -/
def routingDecision (task : String) (gaps : List CoverageGap) : RoutingInfo :=
  let taskLower := lowerStr task
  let r0 : RoutingInfo :=
    { primaryAgent := "coder",
      confidence := 0.75,
      reason := "Default routing based on task analysis",
      coverageImpact := "No coverage data available" }
  if gaps.length > 0 then
    let criticalGaps := gaps.filter isCriticalOrHigh
    let r1 : RoutingInfo :=
      match criticalGaps with
      | [] => r0
      | g :: _ =>
        { primaryAgent := match g.suggestedAgents with
            | [] => "tester"
            | a :: _ => if a == "" then "tester" else a,
          confidence := 0.85,
          reason := "Critical coverage gap in " ++ g.filePath,
          coverageImpact := toString criticalGaps.length ++ " high-priority files need attention" }
    if strHas taskLower "test" || strHas taskLower "coverage" then
      { r1 with primaryAgent := "tester", confidence := 0.9,
                reason := "Task explicitly mentions testing/coverage" }
    else if strHas taskLower "security" || strHas taskLower "auth" then
      { r1 with primaryAgent := "security-architect", confidence := 0.88,
                reason := "Security-related task detected" }
    else r1
  else r0

/-- `coverageRoute` of `coverage-router.ts` (the optional ruvector call
reads no data into the result and is omitted; threshold is the caller's
option, defaulting to 80 at the call sites). -/
def coverageRoute (fs : FS) (jp : JParse) (task : String)
    (projectRoot : String) (threshold : ℚ) : CoverageRouteResult :=
  let loaded := loadCoverageData fs jp projectRoot
  let coverageData := loaded.data
  let gaps :=
    if coverageData.length > 0 then analyzeCoverageGaps fs coverageData projectRoot threshold
    else []
  let routing := routingDecision task gaps
  let suggestions : List String :=
    if loaded.format = CovFormat.none then
      ["Run tests with coverage to enable coverage-aware routing",
       "Supported formats: lcov, istanbul (c8), nyc"]
    else if gaps.length = 0 then ["All files meet coverage threshold"]
    else
      ["Focus on " ++ String.intercalate ", " ((gaps.take 3).map (fun g => basenameOf g.filePath))]
      ++ (if gaps.any isCriticalGap then
            ["Critical coverage gaps detected - prioritize testing"] else [])
  let summary := generateCoverageSummary coverageData threshold
  { success := true,
    task := task,
    coverageAware := loaded.format ≠ CovFormat.none,
    gaps := gaps.take 10,
    routing := routing,
    suggestions := suggestions,
    metrics := { filesAnalyzed := coverageData.length,
                 totalGaps := gaps.length,
                 criticalGaps := (gaps.filter isCriticalGap).length,
                 avgCoverage := summary.overallLineCoverage } }

/-! ### Derived notions used by the statements -/

/-- Maximum of the counter values (`0` for an empty list). -/
def maxCnt (l : List (String × Nat)) : Nat := l.foldr (fun p m => max p.2 m) 0

/-- Counter sitting at the value `M`. -/
def atMaxN (M : Nat) (q : String × Nat) : Bool := q.2 == M

/-- First counter (in enumeration order) that attains the maximum; the
initial value `"feature"` for an empty counter list. -/
def firstAtMax (l : List (String × Nat)) : String :=
  match l.find? (atMaxN (maxCnt l)) with
  | some p => p.1
  | Option.none => "feature"

/-! ### Concrete inputs used by witnesses and counterexamples -/

/-- Scenario file of §8 of the spec: `src/auth/login.ts`, modified,
`+120, -10`. -/
def loginFile : DiffFile :=
  { path := "src/auth/login.ts", status := FileStatus.modified, additions := 120,
    deletions := 10, hunks := 1, binary := false, oldPath := Option.none }

/-- Scenario file of §8 of the spec: `README.md`, added, `+5, -0`. -/
def readmeFile : DiffFile :=
  { path := "README.md", status := FileStatus.added, additions := 5,
    deletions := 0, hunks := 1, binary := false, oldPath := Option.none }

/-- The docs/security tie scenario. -/
def scenarioTie : List DiffFile := [loginFile, readmeFile]

/-- Scenario task text of §8 of the spec. -/
def taskKw : String := "write unit tests for the payment module"

/-- A gap whose suggested agent differs from `tester`, for exercising the
keyword override. -/
def gapW : CoverageGap :=
  { filePath := "src/a.ts", coveragePercent := 0, gapType := GapKind.critical,
    complexity := 1, priority := 118, suggestedAgents := ["coder"],
    uncoveredLines := [], reason := "" }

/-- Filesystem with no files. -/
def fsEmpty : FS := fun _ => Option.none

/-- JSON-parse oracle that always fails (never reached in the witnesses). -/
def jpErr : JParse := fun _ => Except.error "unexpected token"

/-- An all-zero coverage record. -/
def cdZero : CoverageData :=
  { filePath := "src/a.ts", lineCoverage := 0, branchCoverage := 0,
    functionCoverage := 0, statementCoverage := 0, uncoveredLines := [],
    uncoveredBranches := [], uncoveredFunctions := [], totalLines := 0,
    coveredLines := 0 }

/-- Fallback record for total extraction of optional results. -/
def cdDummy : CoverageData :=
  { filePath := "", lineCoverage := 0, branchCoverage := 0,
    functionCoverage := 0, statementCoverage := 0, uncoveredLines := [],
    uncoveredBranches := [], uncoveredFunctions := [], totalLines := 0,
    coveredLines := 0 }

/-- The gap produced for `cdZero`. -/
def gapZero : CoverageGap :=
  (analyzeCoverageGaps fsEmpty [cdZero] "" 80).getD 0
    { filePath := "", coveragePercent := 0, gapType := GapKind.low, complexity := 0,
      priority := 0, suggestedAgents := [], uncoveredLines := [], reason := "" }

/-- An LCOV record with an `SF:` line but no `DA:`/`BRDA:`/`FNDA:` entries:
every metric has zero measured units. -/
def lcovNoUnitsRec : String := "SF:foo.ts\nLF:0\nLH:0"

/-- The coverage record parsed from `lcovNoUnitsRec`. -/
def dLcov : CoverageData := (parseLcovRecord lcovNoUnitsRec).getD cdDummy

/-- A detailed-shape Istanbul entry whose hit maps are present but empty:
every metric has zero measured units. -/
def fdDetailedEmpty : Json :=
  Json.obj [("s", Json.obj []), ("statementMap", Json.obj []),
            ("b", Json.obj []), ("branchMap", Json.obj []),
            ("f", Json.obj []), ("fnMap", Json.obj [])]

/-- The record pushed for `fdDetailedEmpty`. -/
def dIst : CoverageData :=
  match processIstanbulEntry "x" fdDetailedEmpty with
  | EntryStep.push d => d
  | _ => cdDummy

/-- A summary-shape report whose `lines` metric has `total: 0` (zero
measured units) but a precomputed `pct: 0`. -/
def jsonSummaryZero : Json :=
  Json.obj [("a", Json.obj [("lines",
    Json.obj [("total", Json.num 0), ("covered", Json.num 0), ("pct", Json.num 0)])])]

/-- A report whose first entry is a well-formed summary record and whose
second entry carries a non-iterable branch-hits value (`"b": \x7b"0": 5\x7d`),
which makes `for (const hitCount of hits)` throw mid-processing. -/
def jsonPartial : Json :=
  Json.obj
    [("a", Json.obj [("lines",
        Json.obj [("total", Json.num 2), ("covered", Json.num 1), ("pct", Json.num 50)])]),
     ("z", Json.obj [("b", Json.obj [("0", Json.num 5)]), ("branchMap", Json.obj [])])]

/-! ## Helper lemmas -/

theorem le_foldl_addIf (path : String) (c : Int) (hc : 0 ≤ c) :
    ∀ (ps : List RiskPattern) (s : Int),
      s ≤ ps.foldl (fun acc p => if p.test path then acc + c else acc) s
  | [], s => le_refl s
  | p :: rest, s => by
    simp only [List.foldl_cons]
    by_cases h : p.test path
    · rw [if_pos h]
      exact le_trans (by omega) (le_foldl_addIf path c hc rest (s + c))
    · rw [if_neg h]
      exact le_foldl_addIf path c hc rest s

theorem foldl_safeStep_nonneg (path : String) :
    ∀ (ps : List RiskPattern) (s : Int), 0 ≤ s →
      0 ≤ ps.foldl (fun acc p => if p.test path then max 0 (acc - 20) else acc) s
  | [], s, hs => hs
  | p :: rest, s, hs => by
    simp only [List.foldl_cons]
    by_cases h : p.test path
    · rw [if_pos h]
      exact foldl_safeStep_nonneg path rest _ (le_max_left 0 _)
    · rw [if_neg h]
      exact foldl_safeStep_nonneg path rest s hs

theorem riskSizeScore_nonneg (f : DiffFile) : 0 ≤ riskSizeScore f := by
  unfold riskSizeScore
  simp only []
  split_ifs <;> omega

theorem riskRawScore_nonneg (f : DiffFile) : 0 ≤ riskRawScore f := by
  have h1 : 0 ≤ riskAfterMedium f := by
    unfold riskAfterMedium
    exact le_trans (riskSizeScore_nonneg f)
      (le_trans (le_foldl_addIf f.path 25 (by omega) highRiskPatterns _)
        (le_foldl_addIf f.path 15 (by omega) mediumRiskPatterns _))
  have h2 : 0 ≤ riskAfterSafe f := foldl_safeStep_nonneg f.path safePatterns _ h1
  unfold riskRawScore
  split_ifs <;> omega

theorem riskLevelOf_mono (s t : Int) (h : s ≤ t) :
    riskRank (riskLevelOf s) ≤ riskRank (riskLevelOf t) := by
  unfold riskLevelOf
  split_ifs <;> simp [riskRank] <;> omega

/-! ## Claim theorems -/

/-- C7.  For every `DiffFile f`, `assessFileRisk f` produces a score in
`[0, 100]`, its risk label is obtained from that score by the fixed
thresholds (`≥70` critical, `≥50` high-risk, `≥25` medium-risk, else
low-risk), and that threshold map is a non-decreasing step function of the
score. -/
theorem assessFileRisk_score_range (f : DiffFile) :
    0 ≤ (assessFileRisk f).score ∧ (assessFileRisk f).score ≤ 100 ∧
    (assessFileRisk f).risk = riskLevelOf (assessFileRisk f).score ∧
    (∀ s t : Int, s ≤ t → riskRank (riskLevelOf s) ≤ riskRank (riskLevelOf t)) := by
  refine ⟨?_, ?_, rfl, riskLevelOf_mono⟩
  · exact le_min (by omega) (riskRawScore_nonneg f)
  · exact min_le_left 100 (riskRawScore f)

/-- Witness for `assessFileRisk_score_range` at the scenario file
`src/auth/login.ts` and at the concrete scores `30 ≤ 80`. -/
theorem assessFileRisk_score_range_witness :
    (0 ≤ (assessFileRisk loginFile).score ∧ (assessFileRisk loginFile).score ≤ 100 ∧
      (assessFileRisk loginFile).risk = riskLevelOf (assessFileRisk loginFile).score) ∧
    riskRank (riskLevelOf 30) ≤ riskRank (riskLevelOf 80) := by
  refine ⟨⟨(assessFileRisk_score_range loginFile).1,
          (assessFileRisk_score_range loginFile).2.1,
          (assessFileRisk_score_range loginFile).2.2.1⟩,
         (assessFileRisk_score_range loginFile).2.2.2 30 80 (by omega)⟩

/-- C8.  When no coverage report exists at any conventional LCOV or
Istanbul/c8 location, `loadCoverageData` returns the empty coverage set
with format tag `none` and a null report path (and, being a total
function of its oracles, raises no error). -/
theorem loadCoverageData_no_reports (fs : FS) (jp : JParse) (projectRoot : String)
    (h : ∀ p ∈ conventionalCoveragePaths projectRoot, fs p = Option.none) :
    loadCoverageData fs jp projectRoot =
      { data := [], format := CovFormat.none, reportPath := Option.none } := by
  have h1 : (lcovPaths projectRoot).filter (fun p => (fs p).isSome) = [] := by
    refine List.filter_eq_nil_iff.mpr (fun p hp => ?_)
    rw [h p (List.mem_append_left _ hp)]
    simp
  have h2 : (summaryPaths projectRoot).filter (fun p => (fs p).isSome) = [] := by
    refine List.filter_eq_nil_iff.mpr (fun p hp => ?_)
    rw [h p (List.mem_append_right _ hp)]
    simp
  have hrep : findCoverageReports fs projectRoot = [] := by
    unfold findCoverageReports
    rw [h1, h2]
    rfl
  unfold loadCoverageData
  rw [hrep]
  rfl

/-- Witness for `loadCoverageData_no_reports` on the empty filesystem. -/
theorem loadCoverageData_no_reports_witness :
    loadCoverageData fsEmpty jpErr "proj" =
      { data := [], format := CovFormat.none, reportPath := Option.none } :=
  loadCoverageData_no_reports fsEmpty jpErr "proj" (fun _ _ => rfl)

/-- C9.  If either underlying git query fails, `getGitDiffNumstat` fails
with an error, and a successful call returns the complete parse of both
outputs — the caller never receives a prefix of the file list. -/
theorem getGitDiffNumstat_error_no_suffix (numstatRes nameStatusRes : Except String String) :
    (numstatRes.isOk = false ∨ nameStatusRes.isOk = false →
      (getGitDiffNumstat numstatRes nameStatusRes).isOk = false) ∧
    (∀ a b : String,
      getGitDiffNumstat (Except.ok a) (Except.ok b) = Except.ok (gitNumstatFiles a b)) := by
  refine ⟨fun h => ?_, fun a b => rfl⟩
  cases numstatRes with
  | error e => rfl
  | ok ns =>
    cases nameStatusRes with
    | error e => rfl
    | ok sts =>
      rcases h with h | h <;> simp [Except.isOk, Except.toBool] at h

/-- Witness for `getGitDiffNumstat_error_no_suffix` at a failing numstat
query. -/
theorem getGitDiffNumstat_error_no_suffix_witness :
    (getGitDiffNumstat (Except.error "fatal: bad revision") (Except.ok "")).isOk = false :=
  (getGitDiffNumstat_error_no_suffix (Except.error "fatal: bad revision") (Except.ok "")).1
    (Or.inl rfl)

/-- C10.  The gap list embedded in a `coverageRoute` result is truncated to
at most 10 entries, while `metrics.totalGaps` still reports the full count
produced by `analyzeCoverageGaps`. -/
theorem coverageRoute_gap_limit (fs : FS) (jp : JParse) (task projectRoot : String)
    (threshold : ℚ) :
    (coverageRoute fs jp task projectRoot threshold).gaps.length ≤ 10 ∧
    (coverageRoute fs jp task projectRoot threshold).metrics.totalGaps =
      (analyzeCoverageGaps fs (loadCoverageData fs jp projectRoot).data
        projectRoot threshold).length := by
  unfold coverageRoute
  simp only []
  constructor
  · split_ifs <;> simp [List.length_take]
  · split_ifs with hpos
    · rfl
    · have hnil : (loadCoverageData fs jp projectRoot).data = [] := by
        cases hd : (loadCoverageData fs jp projectRoot).data with
        | nil => rfl
        | cons x xs => rw [hd] at hpos; simp at hpos
      rw [hnil]
      rfl

/-- C1 counterexample.  With an *empty* gap list the keyword override never
runs: for the spec's own scenario task (which contains "test"), the routing
block returns the default `coder`/0.75, not `tester`/0.9 — and the full
facade on a project without coverage reports does the same. -/
theorem coverageRoute_keyword_empty_gaps_cex :
    (routingDecision taskKw []).primaryAgent = "coder" ∧
    (routingDecision taskKw []).confidence = 0.75 ∧
    strHas (lowerStr taskKw) "test" = true ∧
    ¬ (routingDecision taskKw []).primaryAgent = "tester" ∧
    (coverageRoute fsEmpty jpErr taskKw "proj" 80).routing.primaryAgent = "coder" := by
  with_unfolding_all decide

/-- C1 (amended).  The task-keyword override of the routing block applies
only inside the non-empty-gaps branch: whenever the gap list is non-empty,
a task containing a test/coverage keyword routes to `tester` with
confidence 0.9 regardless of any gap-derived agent, and otherwise a
security/auth keyword routes to `security-architect` with confidence
0.88. -/
theorem coverageRoute_keyword_override (task : String) (gaps : List CoverageGap)
    (hne : gaps ≠ []) :
    ((strHas (lowerStr task) "test" || strHas (lowerStr task) "coverage") = true →
      (routingDecision task gaps).primaryAgent = "tester" ∧
      (routingDecision task gaps).confidence = 0.9) ∧
    ((strHas (lowerStr task) "test" || strHas (lowerStr task) "coverage") = false →
      (strHas (lowerStr task) "security" || strHas (lowerStr task) "auth") = true →
      (routingDecision task gaps).primaryAgent = "security-architect" ∧
      (routingDecision task gaps).confidence = 0.88) := by
  have hl : gaps.length > 0 := List.length_pos.mpr hne
  constructor
  · intro hkw
    unfold routingDecision
    simp only [if_pos hl, hkw]
    simp
  · intro hkw hsec
    unfold routingDecision
    simp only [if_pos hl, hkw, hsec]
    simp

/-- Witness for `coverageRoute_keyword_override` at the scenario task and a
non-empty gap list whose gap-derived agent is `coder`. -/
theorem coverageRoute_keyword_override_witness :
    (routingDecision taskKw [gapW]).primaryAgent = "tester" ∧
    (routingDecision taskKw [gapW]).confidence = 0.9 :=
  (coverageRoute_keyword_override taskKw [gapW] (by simp)).1 (by decide)

theorem le_maxCnt : ∀ (l : List (String × Nat)) (q : String × Nat), q ∈ l → q.2 ≤ maxCnt l
  | p :: rest, q, hq => by
    unfold maxCnt
    simp only [List.foldr_cons]
    rcases List.mem_cons.mp hq with h | h
    · subst h
      exact le_max_left _ _
    · exact le_trans (le_maxCnt rest q h) (le_max_right _ _)

theorem maxCnt_attained : ∀ (l : List (String × Nat)),
    maxCnt l = 0 ∨ ∃ q ∈ l, q.2 = maxCnt l
  | [] => Or.inl rfl
  | p :: rest => by
    have hcons : maxCnt (p :: rest) = max p.2 (maxCnt rest) := rfl
    rcases max_choice p.2 (maxCnt rest) with h | h
    · exact Or.inr ⟨p, List.mem_cons_self p rest, by rw [hcons, h]⟩
    · rcases maxCnt_attained rest with h0 | ⟨q, hq, hq2⟩
      · rcases Nat.eq_zero_or_pos p.2 with hp | hp
        · exact Or.inl (by rw [hcons, h0, hp]; simp)
        · exact Or.inr ⟨p, List.mem_cons_self p rest, by rw [hcons, h0]; simp⟩
      · exact Or.inr ⟨q, List.mem_cons_of_mem p hq, by rw [hcons, h, hq2]⟩

theorem pickMax_of_all_le : ∀ (l : List (String × Nat)) (acc : String × Nat),
    (∀ q ∈ l, q.2 ≤ acc.2) → pickMax l acc = acc
  | [], _, _ => rfl
  | p :: rest, acc, h => by
    unfold pickMax
    rw [if_neg (by
      have := h p (List.mem_cons_self p rest)
      omega)]
    exact pickMax_of_all_le rest acc (fun q hq => h q (List.mem_cons_of_mem p hq))

theorem pickMax_finds_first : ∀ (l : List (String × Nat)) (acc : String × Nat) (M : Nat),
    (∀ q ∈ l, q.2 ≤ M) → acc.2 < M →
    ∀ p, l.find? (atMaxN M) = some p → pickMax l acc = p
  | [], _, _, _, _, p, hfind => by simp [List.find?] at hfind
  | q :: rest, acc, M, hle, hacc, p, hfind => by
    by_cases hq : q.2 = M
    · have hb : atMaxN M q = true := by simp [atMaxN, hq]
      simp only [List.find?, hb] at hfind
      injection hfind with hp
      subst hp
      unfold pickMax
      rw [if_pos (by omega)]
      exact pickMax_of_all_le rest q (fun r hr => by
        have := hle r (List.mem_cons_of_mem q hr)
        omega)
    · have hb : atMaxN M q = false := by simp [atMaxN, hq]
      simp only [List.find?, hb] at hfind
      have hqlt : q.2 < M := lt_of_le_of_ne (hle q (List.mem_cons_self q rest)) hq
      unfold pickMax
      by_cases hgt : q.2 > acc.2
      · rw [if_pos hgt]
        exact pickMax_finds_first rest q M
          (fun r hr => hle r (List.mem_cons_of_mem q hr)) hqlt p hfind
      · rw [if_neg hgt]
        exact pickMax_finds_first rest acc M
          (fun r hr => hle r (List.mem_cons_of_mem q hr)) hacc p hfind

/-- The winning category of `classifyDiff` is always the first counter (in
the fixed enumeration order) attaining the maximum. -/
theorem classifyCategory_eq_firstAtMax (files : List DiffFile) :
    classifyCategory files = firstAtMax (categoryCounts files) := by
  rcases Nat.eq_zero_or_pos (maxCnt (categoryCounts files)) with hM | hM
  · -- all counters are zero: `pickMax` keeps the initial `("feature", 0)`,
    -- and the first counter is the `feature` counter, sitting at 0.
    have hall : ∀ q ∈ categoryCounts files, q.2 ≤ 0 := fun q hq => by
      have := le_maxCnt (categoryCounts files) q hq
      omega
    have h1 : classifyCategory files = "feature" := by
      unfold classifyCategory
      rw [pickMax_of_all_le _ _ (fun q hq => hall q hq)]
    have hL : categoryCounts files =
        ("feature", files.countP (fun f => fileCategory f == "feature")) ::
          (categoryNames.drop 1).map
            (fun c => (c, files.countP (fun f => fileCategory f == c))) := rfl
    have hc0 : files.countP (fun f => fileCategory f == "feature") = 0 := by
      have := hall ("feature", files.countP (fun f => fileCategory f == "feature"))
        (by rw [hL]; exact List.mem_cons_self _ _)
      omega
    unfold firstAtMax
    rw [hM]
    rw [hL]
    have hb : atMaxN 0
        ("feature", files.countP (fun f => fileCategory f == "feature")) = true := by
      simp [atMaxN, hc0]
    simp only [List.find?, hb]
    rw [h1]
  · rcases maxCnt_attained (categoryCounts files) with h0 | ⟨q, hq, hq2⟩
    · omega
    · have hsome : ((categoryCounts files).find?
          (atMaxN (maxCnt (categoryCounts files)))).isSome = true := by
        refine List.find?_isSome.mpr ⟨q, hq, ?_⟩
        simp [atMaxN, hq2]
      cases hfind : (categoryCounts files).find? (atMaxN (maxCnt (categoryCounts files))) with
      | none => rw [hfind] at hsome; simp at hsome
      | some p =>
        unfold firstAtMax
        rw [hfind]
        unfold classifyCategory
        rw [pickMax_finds_first (categoryCounts files) ("feature", 0)
          (maxCnt (categoryCounts files))
          (fun r hr => le_maxCnt _ r hr) hM p hfind]

/-- C2.  Whenever two or more of the 9 category counters tie at the
maximum, `classifyDiff` returns the counter that comes first in the fixed
enumeration order (feature, bugfix, refactor, test, docs, config, style,
infra, security); in particular the docs/security tie of the spec scenario
(docs = 1, security = 1, all others 0) classifies as `"docs"`. -/
theorem classifyDiff_tiebreak :
    (∀ files : List DiffFile,
      2 ≤ (categoryCounts files).countP (atMaxN (maxCnt (categoryCounts files))) →
      classifyCategory files = firstAtMax (categoryCounts files)) ∧
    countOf scenarioTie "docs" = 1 ∧ countOf scenarioTie "security" = 1 ∧
    countOf scenarioTie "feature" = 0 ∧ countOf scenarioTie "bugfix" = 0 ∧
    countOf scenarioTie "refactor" = 0 ∧ countOf scenarioTie "test" = 0 ∧
    countOf scenarioTie "config" = 0 ∧ countOf scenarioTie "style" = 0 ∧
    countOf scenarioTie "infra" = 0 ∧
    (classifyDiff scenarioTie).category = "docs" := by
  refine ⟨fun files _ => classifyCategory_eq_firstAtMax files, ?_⟩
  decide

/-- Witness for `classifyDiff_tiebreak` at the docs/security tie scenario
(two counters sit at the maximum). -/
theorem classifyDiff_tiebreak_witness :
    2 ≤ (categoryCounts scenarioTie).countP (atMaxN (maxCnt (categoryCounts scenarioTie))) ∧
    classifyCategory scenarioTie = firstAtMax (categoryCounts scenarioTie) :=
  ⟨by decide, classifyDiff_tiebreak.1 scenarioTie (by decide)⟩

theorem length_gapFilterMap (fs : FS) (root : String) (thr : ℚ) :
    ∀ data : List CoverageData,
      (data.filterMap (fun d =>
        if mean4 d ≥ thr then Option.none
        else some (mkCoverageGap fs root thr d))).length = data.countP (belowThr thr)
  | [] => rfl
  | d :: rest => by
    by_cases h : mean4 d ≥ thr
    · have hb : belowThr thr d = false := by
        simp [belowThr]
        exact h
      simp only [List.filterMap_cons, if_pos h, List.countP_cons, hb]
      simpa using length_gapFilterMap fs root thr rest
    · have hb : belowThr thr d = true := by
        simp [belowThr]
        exact lt_of_not_ge h
      simp only [List.filterMap_cons, if_neg h, List.countP_cons, hb, List.length_cons]
      rw [length_gapFilterMap fs root thr rest]
      simp

/-- Membership in `analyzeCoverageGaps` comes exactly from the
below-threshold records. -/
theorem mem_analyzeCoverageGaps {fs : FS} {data : List CoverageData} {root : String}
    {thr : ℚ} {g : CoverageGap} (hg : g ∈ analyzeCoverageGaps fs data root thr) :
    ∃ d ∈ data, mean4 d < thr ∧ g = mkCoverageGap fs root thr d := by
  unfold analyzeCoverageGaps at hg
  rw [List.mem_insertionSort] at hg
  rcases List.mem_filterMap.mp hg with ⟨d, hd, hsome⟩
  by_cases h : mean4 d ≥ thr
  · rw [if_pos h] at hsome
    exact absurd hsome (by simp)
  · rw [if_neg h] at hsome
    exact ⟨d, hd, lt_of_not_ge h, (Option.some.injEq _ _).mp hsome.symm⟩

/-- C5.  `analyzeCoverageGaps` never emits a gap for a record whose
4-metric mean meets the threshold: every emitted gap records a mean below
the threshold, comes from a below-threshold input record, and the number of
gaps equals the number of below-threshold records. -/
theorem analyzeCoverageGaps_threshold (fs : FS) (data : List CoverageData)
    (root : String) (thr : ℚ) (g : CoverageGap)
    (hg : g ∈ analyzeCoverageGaps fs data root thr) :
    g.coveragePercent < thr ∧
    (∃ d ∈ data, mean4 d < thr ∧ g.filePath = d.filePath ∧ g.coveragePercent = mean4 d) ∧
    (analyzeCoverageGaps fs data root thr).length = data.countP (belowThr thr) := by
  rcases mem_analyzeCoverageGaps hg with ⟨d, hd, hlt, hgd⟩
  refine ⟨?_, ⟨d, hd, hlt, ?_, ?_⟩, ?_⟩
  · rw [hgd]
    exact hlt
  · rw [hgd]
    rfl
  · rw [hgd]
    rfl
  · unfold analyzeCoverageGaps
    rw [List.length_insertionSort]
    exact length_gapFilterMap fs root thr data

/-- Witness for `analyzeCoverageGaps_threshold` at the all-zero record. -/
theorem analyzeCoverageGaps_threshold_witness :
    gapZero.coveragePercent < 80 ∧
    (∃ d ∈ [cdZero], mean4 d < 80 ∧ gapZero.filePath = d.filePath ∧
      gapZero.coveragePercent = mean4 d) ∧
    (analyzeCoverageGaps fsEmpty [cdZero] "" 80).length = [cdZero].countP (belowThr 80) :=
  analyzeCoverageGaps_threshold fsEmpty [cdZero] "" 80 gapZero
    (by with_unfolding_all decide)

theorem dedupAux_spec {α : Type} [DecidableEq α] :
    ∀ (l seen : List α), (dedupAux l seen).Nodup ∧ ∀ x ∈ dedupAux l seen, x ∉ seen
  | [], _ => ⟨List.nodup_nil, by simp [dedupAux]⟩
  | a :: rest, seen => by
    unfold dedupAux
    by_cases h : a ∈ seen
    · rw [if_pos h]
      exact dedupAux_spec rest seen
    · rw [if_neg h]
      rcases dedupAux_spec rest (a :: seen) with ⟨hnd, hnotin⟩
      refine ⟨List.nodup_cons.mpr ⟨fun hmem => ?_, hnd⟩, ?_⟩
      · exact hnotin a hmem (List.mem_cons_self a seen)
      · intro x hx
        rcases List.mem_cons.mp hx with hxa | hxd
        · subst hxa
          exact h
        · intro hxs
          exact hnotin x hxd (List.mem_cons_of_mem a hxs)

theorem dedupFirst_nodup {α : Type} [DecidableEq α] (l : List α) :
    (dedupFirst l).Nodup := (dedupAux_spec l []).1

/-- The agent list suggested for any file has at most 4 entries and no
duplicates. -/
theorem take4_dedup_ok (l : List String) :
    ((dedupFirst l).take 4).length ≤ 4 ∧ ((dedupFirst l).take 4).Nodup := by
  refine ⟨?_, List.Nodup.sublist (List.take_sublist 4 _) (dedupFirst_nodup _)⟩
  rw [List.length_take]
  exact min_le_left 4 _

/-- The agent list suggested for any file has at most 4 entries and no
duplicates. -/
theorem suggestAgentsForFile_ok (filePath : String) (cd : CoverageData)
    (gt : GapKind) :
    (suggestAgentsForFile filePath cd gt).length ≤ 4 ∧
    (suggestAgentsForFile filePath cd gt).Nodup := by
  unfold suggestAgentsForFile
  simp only []
  split
  · exact ⟨by simp, by decide⟩
  · exact take4_dedup_ok _

/-- C6.  The gap list returned by `analyzeCoverageGaps` is sorted
non-increasing by priority, and every gap's `suggestedAgents` has at most 4
entries and no duplicates. -/
theorem analyzeCoverageGaps_sorted_agents (fs : FS) (data : List CoverageData)
    (root : String) (thr : ℚ) (g : CoverageGap)
    (hg : g ∈ analyzeCoverageGaps fs data root thr) :
    List.Pairwise priorityGE (analyzeCoverageGaps fs data root thr) ∧
    g.suggestedAgents.length ≤ 4 ∧ g.suggestedAgents.Nodup := by
  refine ⟨List.sorted_insertionSort priorityGE _, ?_, ?_⟩
  all_goals
    rcases mem_analyzeCoverageGaps hg with ⟨d, _, _, hgd⟩
    subst hgd
  · exact (suggestAgentsForFile_ok d.filePath d _).1
  · exact (suggestAgentsForFile_ok d.filePath d _).2

/-- Witness for `analyzeCoverageGaps_sorted_agents` at the all-zero
record. -/
theorem analyzeCoverageGaps_sorted_agents_witness :
    List.Pairwise priorityGE (analyzeCoverageGaps fsEmpty [cdZero] "" 80) ∧
    gapZero.suggestedAgents.length ≤ 4 ∧ gapZero.suggestedAgents.Nodup :=
  analyzeCoverageGaps_sorted_agents fsEmpty [cdZero] "" 80 gapZero
    (by with_unfolding_all decide)

theorem parseLcovRecord_zero_units (rec : String) (d : CoverageData)
    (h : parseLcovRecord rec = some d) :
    ((recLines rec).countP isDA = 0 → d.lineCoverage = 100 ∧ d.statementCoverage = 100) ∧
    ((recLines rec).countP isBRDA = 0 → d.branchCoverage = 100) ∧
    ((recLines rec).countP isFNDA = 0 → d.functionCoverage = 100) := by
  unfold parseLcovRecord at h
  split at h
  · exact absurd h (by simp)
  · split at h
    · exact absurd h (by simp)
    · simp only [Option.some.injEq] at h
      subst h
      refine ⟨fun hda => ⟨?_, ?_⟩, fun hbr => ?_, fun hfn => ?_⟩
      · show lcovLinePct (recLines rec) = 100
        unfold lcovLinePct
        rw [hda]
        simp
      · show lcovLinePct (recLines rec) = 100
        unfold lcovLinePct
        rw [hda]
        simp
      · show lcovBranchPct (recLines rec) = 100
        unfold lcovBranchPct
        rw [hbr]
        simp
      · show lcovFnPct (recLines rec) = 100
        unfold lcovFnPct
        rw [hfn]
        simp

/-- In the detailed shape, a pushed record's metric fields are exactly the
named statement/branch/function parts. -/
theorem processIstanbulEntry_detailed (name : String) (fd : Json) (d : CoverageData)
    (h : processIstanbulEntry name fd = EntryStep.push d)
    (hsum : summaryCond fd = false) :
    ∃ bp, istanbulBranchPart fd = some bp ∧
      d.statementCoverage = (istanbulStmtPart fd).pct ∧
      d.lineCoverage = (istanbulStmtPart fd).pct ∧
      d.branchCoverage = bp.1 ∧
      d.functionCoverage = (istanbulFnPart fd).pct := by
  unfold processIstanbulEntry at h
  split at h
  · exact absurd h (by simp)
  · split at h
    · exact absurd h (by simp)
    · rw [hsum] at h
      simp only [Bool.false_eq_true, if_false] at h
      split at h
      · exact absurd h (by simp)
      · rename_i bp heq
        simp only [EntryStep.push.injEq] at h
        subst h
        exact ⟨bp, heq, rfl, rfl, rfl, rfl⟩

theorem istanbulStmtPart_zero (fd : Json)
    (hs : (jtruthy (jfield fd "s") && jtruthy (jfield fd "statementMap")) = true)
    (he : jentries (jfield fd "s") = []) : (istanbulStmtPart fd).pct = 100 := by
  unfold istanbulStmtPart
  rw [hs, he]
  simp

theorem istanbulFnPart_zero (fd : Json)
    (hf : (jtruthy (jfield fd "f") && jtruthy (jfield fd "fnMap")) = true)
    (he : jentries (jfield fd "f") = []) : (istanbulFnPart fd).pct = 100 := by
  unfold istanbulFnPart
  rw [hf, he]
  simp

theorem istanbulBranchPart_zero (fd : Json)
    (hb : (jtruthy (jfield fd "b") && jtruthy (jfield fd "branchMap")) = true)
    (he : jentries (jfield fd "b") = []) :
    istanbulBranchPart fd = some (100, []) := by
  unfold istanbulBranchPart
  rw [hb, he]
  simp [collectBranches]

/-- C3 counterexample.  In the Istanbul *summary* shape the parser copies
the precomputed `pct` verbatim: a record whose `lines` metric has zero
measured units (`total: 0`) but `pct: 0` parses to a line coverage of `0`,
not `100`. -/
theorem parseIstanbul_summary_zero_units_cex :
    (parseIstanbulJson (Except.ok jsonSummaryZero)).map CoverageData.lineCoverage = [0] ∧
    (parseIstanbulJson (Except.ok jsonSummaryZero)).map CoverageData.totalLines = [0] ∧
    ((0 : ℚ) = 100 → False) := by
  with_unfolding_all decide

/-- C3 (amended).  A metric with zero measured units yields a coverage
percentage of exactly 100 in `parseLcov` (no `DA:`/`BRDA:`/`FNDA:` entry in
the record) and in the detailed Istanbul shape of `parseIstanbulJson`
(present but empty hit maps); in the summary shape the precomputed `pct`
values are copied verbatim instead. -/
theorem parsers_zero_units_vacuous_pass :
    (∀ (rec : String) (d : CoverageData), parseLcovRecord rec = some d →
      ((recLines rec).countP isDA = 0 → d.lineCoverage = 100 ∧ d.statementCoverage = 100) ∧
      ((recLines rec).countP isBRDA = 0 → d.branchCoverage = 100) ∧
      ((recLines rec).countP isFNDA = 0 → d.functionCoverage = 100)) ∧
    (∀ (name : String) (fd : Json) (d : CoverageData),
      processIstanbulEntry name fd = EntryStep.push d → summaryCond fd = false →
      ((jtruthy (jfield fd "s") && jtruthy (jfield fd "statementMap")) = true →
        jentries (jfield fd "s") = [] →
        d.statementCoverage = 100 ∧ d.lineCoverage = 100) ∧
      ((jtruthy (jfield fd "b") && jtruthy (jfield fd "branchMap")) = true →
        jentries (jfield fd "b") = [] → d.branchCoverage = 100) ∧
      ((jtruthy (jfield fd "f") && jtruthy (jfield fd "fnMap")) = true →
        jentries (jfield fd "f") = [] → d.functionCoverage = 100)) := by
  refine ⟨parseLcovRecord_zero_units, fun name fd d h hsum => ?_⟩
  rcases processIstanbulEntry_detailed name fd d h hsum with ⟨bp, hbp, hst, hln, hbr, hfn⟩
  refine ⟨fun hs he => ?_, fun hb he => ?_, fun hf he => ?_⟩
  · rw [hst, hln, istanbulStmtPart_zero fd hs he]
    exact ⟨rfl, rfl⟩
  · rw [hbr]
    have := istanbulBranchPart_zero fd hb he
    rw [this] at hbp
    injection hbp with hbp'
    rw [← hbp']
  · rw [hfn]
    exact istanbulFnPart_zero fd hf he

/-- Witness for `parsers_zero_units_vacuous_pass` at an LCOV record with
no measured units and a detailed Istanbul entry with empty hit maps. -/
theorem parsers_zero_units_vacuous_pass_witness :
    (dLcov.lineCoverage = 100 ∧ dLcov.statementCoverage = 100) ∧
    dLcov.branchCoverage = 100 ∧ dLcov.functionCoverage = 100 ∧
    (dIst.statementCoverage = 100 ∧ dIst.lineCoverage = 100) ∧
    dIst.branchCoverage = 100 ∧ dIst.functionCoverage = 100 := by
  have hl := parsers_zero_units_vacuous_pass.1 lcovNoUnitsRec dLcov
    (by with_unfolding_all decide)
  have hi := parsers_zero_units_vacuous_pass.2 "x" fdDetailedEmpty dIst
    (by with_unfolding_all rfl) (by decide)
  exact ⟨hl.1 (by decide), hl.2.1 (by decide), hl.2.2 (by decide),
         hi.1 (by decide) (by rfl), hi.2.1 (by decide) (by rfl),
         hi.2.2 (by decide) (by rfl)⟩

/-- C4 counterexample.  A report whose first entry is well-formed and whose
second entry makes branch-hit iteration throw returns the one
already-parsed record — a non-empty *partial* file set, not the empty
list. -/
theorem parseIstanbul_partial_cex :
    (parseIstanbulJson (Except.ok jsonPartial)).length = 1 ∧
    (parseIstanbulJson (Except.ok jsonPartial) = [] → False) ∧
    processIstanbulEntry "z" (jfield jsonPartial "z") = EntryStep.thrown := by
  with_unfolding_all decide

/-- C4 (amended).  A JSON parse exception yields the empty result list, and
no exception propagates (the parser is total); but an exception thrown
while processing a record — for example iterating a non-iterable branch
hits value, or a top-level `null` — is caught and the records completed
before it are returned, so a partial file set is possible. -/
theorem parseIstanbul_parse_error_empty :
    (∀ e : String, parseIstanbulJson (Except.error e) = []) ∧
    parseIstanbulJson (Except.ok Json.null) = [] := by
  exact ⟨fun _ => rfl, rfl⟩

end RuVector
